import Mathlib

set_option maxRecDepth 65536

/-!
Shallow embedding of the rule-based SEO content pipeline (`app.py`,
class `AutomatedSEOContentStrategist`) and proofs about it.

The Python code is modelled as pure Lean functions:
* `analyze_competitor_content` — keyword analysis of raw competitor text;
* `generate_content_brief`     — deterministic brief construction;
* `generate_full_article`      — article composition, with the global
  pseudo-random source modelled as an explicit stream `g : Nat → Nat`
  consumed at sequentially threaded indices;
* `generate_seo_metadata`      — metadata construction;
* `sessionStep`                — the Streamlit session-state machine
  (`main` / `show_step_1..3`) as a transition function on an explicit
  session-state record.
-/

/-! ## Python string primitives -/

/-- Model of `str.lower()` for the ASCII texts handled by the app. -/
def pyLower (s : String) : String := String.mk (s.toList.map Char.toLower)

/-- Model of Python `str.title()`: the first letter of every alphabetic run
is upper-cased, the following letters are lower-cased, other characters are
unchanged.  The boolean argument records whether the previous character was
alphabetic. -/
def titleAux : Bool → List Char → List Char
  | _, [] => []
  | prevAlpha, c :: cs =>
    (if c.isAlpha then (if prevAlpha then c.toLower else c.toUpper) else c)
      :: titleAux c.isAlpha cs

/-- Model of Python `str.title()`. -/
def pyTitle (s : String) : String := String.mk (titleAux false s.toList)

/-- Characters treated as whitespace by Python `str.split()`. -/
def pyIsSpace (c : Char) : Bool :=
  c = ' ' || c = '\t' || c = '\n' || c = '\r' || c = '\x0b' || c = '\x0c'

/-- Split a character list into maximal runs of characters satisfying `keep`
(the accumulator holds the reversed current run). -/
def runsAux (keep : Char → Bool) : List Char → List Char → List (List Char)
  | [], acc => if acc.isEmpty then [] else [acc.reverse]
  | c :: cs, acc =>
    if keep c then runsAux keep cs (c :: acc)
    else if acc.isEmpty then runsAux keep cs []
    else acc.reverse :: runsAux keep cs []

/-- Model of Python `str.split()` (whitespace split, empty chunks dropped). -/
def pySplit (s : String) : List String :=
  (runsAux (fun c => !pyIsSpace c) s.toList []).map String.mk

/-- Word characters of the regex module (`\w` over ASCII input). -/
def isWordChar (c : Char) : Bool := c.isAlpha || c.isDigit || c = '_'

/-- Model of `re.findall(r'\b[a-zA-Z]{4,}\b', content.lower())`: the maximal
word-character runs of the lower-cased text that consist purely of letters
and have length at least 4 (a run containing a digit or underscore has no
word boundary inside it, so no shorter sub-run can match). -/
def findWords (content : String) : List String :=
  ((runsAux isWordChar (pyLower content).toList []).filter
      (fun r => r.all (fun c => c.isAlpha) && decide (4 ≤ r.length))).map String.mk

/-- Model of `str.replace(' ', '-')`. -/
def replaceSpaceDash (s : String) : String :=
  String.mk (s.toList.map (fun c => if c = ' ' then '-' else c))

/-- Containment of a character list as a contiguous segment of another. -/
def infixOfB (needle : List Char) : List Char → Bool
  | [] => needle.isEmpty
  | c :: cs => needle.isPrefixOf (c :: cs) || infixOfB needle cs

/-- Model of the Python substring test `needle in hay`. -/
def substrIn (needle hay : String) : Bool :=
  infixOfB needle.toList hay.toList

/-! ## Random primitives

Python's global `random` module is modelled by a draw stream `g : Nat → Nat`;
the `k`-th call of a random primitive consumes `g k`. -/

/-- Model of `random.choice(l)` given a raw draw `r`. -/
def pyChoice (l : List String) (r : Nat) : String := l.getD (r % l.length) ""

/-- Model of `random.randint(a, b)` (both bounds inclusive) for a raw draw. -/
def pyRandint (a b r : Nat) : Nat := a + r % (b + 1 - a)

/-! ## Data model -/

/-- A page record produced from the sitemap (`fetch_sitemap`). -/
structure SitePage where
  url : String
  title : String
  anchor_text : String
deriving Repr, DecidableEq

/-- Result record of `analyze_competitor_content`. -/
structure CompetitorAnalysis where
  main_keyword : String
  secondary_keywords : List String
  word_count : Nat
  top_terms : List (String × Nat)
  content_quality : String
deriving Repr, DecidableEq

/-- An internal-link record of the brief. -/
structure LinkEntry where
  anchor_text : String
  url : String
  placement : String
deriving Repr, DecidableEq

/-- The `heading_structure` field of the brief. -/
structure HeadingStructure where
  h1 : String
  h2s : List String
deriving Repr, DecidableEq

/-- Result record of `generate_content_brief`. -/
structure ContentBrief where
  heading_structure : HeadingStructure
  snippet_opportunities : List String
  paa_questions : List String
  semantic_keywords : List String
  internal_links : List LinkEntry
  content_gaps : List String
  user_intent : String
deriving Repr, DecidableEq

/-- Result record of `generate_seo_metadata`. -/
structure SeoMetadata where
  main_keyword : String
  secondary_keywords : List String
  meta_titles : List String
  meta_descriptions : List String
  slug_url : String
  schema_recommendations : List String
deriving Repr, DecidableEq

/-! ## KeywordAnalyzer (`analyze_competitor_content`) -/

/-- The fixed stop-word set of the analyzer. -/
def stop_words : List String :=
  ["that", "with", "this", "have", "from", "they", "what", "when", "your",
   "will", "which", "their", "there", "about"]

/-- The fixed domain-term allow-list (`immigration_terms`), in source order. -/
def immigration_terms : List String :=
  ["visa", "immigration", "application", "requirements", "uk", "home",
   "office", "leave", "remain", "citizenship", "spouse", "family", "work",
   "student"]

/-- Model of `word_freq[word] = word_freq.get(word, 0) + 1` on an
insertion-ordered dictionary represented as an association list. -/
def bump : List (String × Nat) → String → List (String × Nat)
  | [], w => [(w, 1)]
  | (k, v) :: rest, w =>
    if k = w then (k, v + 1) :: rest else (k, v) :: bump rest w

/-- The frequency-counting loop of `analyze_competitor_content`. -/
def countWords : List String → List (String × Nat) → List (String × Nat)
  | [], acc => acc
  | w :: ws, acc =>
    countWords ws (if ¬ w ∈ stop_words ∧ 3 < w.length then bump acc w else acc)

/-- `word_freq` of the analyzer for a given input text. -/
def wordFreq (content : String) : List (String × Nat) :=
  countWords (findWords content) []

/-- Stable descending insertion of one entry (`insertDesc p l` puts `p`
after every entry of `l` whose count is at least `p`'s count). -/
def insertDesc (p : String × Nat) : List (String × Nat) → List (String × Nat)
  | [] => [p]
  | q :: rest => if q.2 < p.2 then p :: q :: rest else q :: insertDesc p rest

/-- Model of `sorted(word_freq.items(), key=lambda x: x[1], reverse=True)`:
a stable sort, descending by count, ties kept in insertion order. -/
def sortDesc (l : List (String × Nat)) : List (String × Nat) :=
  l.foldl (fun acc p => insertDesc p acc) []

/-- `sorted_words` of the analyzer for a given input text. -/
def sortedWords (content : String) : List (String × Nat) :=
  sortDesc (wordFreq content)

/-- `main_keyword = sorted_words[0][0] if sorted_words else "immigration"`. -/
def provisionalKeyword (content : String) : String :=
  match sortedWords content with
  | [] => "immigration"
  | p :: _ => p.1

/-- Model of `term in word_freq`. -/
def hasKey (freq : List (String × Nat)) (w : String) : Bool :=
  freq.any (fun p => p.1 == w)

/-- The allow-list override loop:
`for term in immigration_terms: if term in word_freq and term != main_keyword:
main_keyword = term; break`. -/
def overrideScan (freq : List (String × Nat)) (main : String) : List String → String
  | [] => main
  | t :: ts =>
    if hasKey freq t && t != main then t else overrideScan freq main ts

/-- The lower-cased main keyword finally selected by the analyzer. -/
def mainKeywordRaw (content : String) : String :=
  overrideScan (wordFreq content) (provisionalKeyword content) immigration_terms

/-- Model of `analyze_competitor_content`. -/
def analyze_competitor_content (content : String) : CompetitorAnalysis :=
  let main_keyword := mainKeywordRaw content
  { main_keyword := pyTitle main_keyword
    secondary_keywords :=
      (((sortedWords content).drop 1).take 10).filterMap
        (fun p => if p.1 = main_keyword then none else some p.1)
    word_count := (pySplit content).length
    top_terms := (sortedWords content).take 20
    content_quality := if 800 < (pySplit content).length then "high" else "medium" }

/-! ## LinkCollector and ContentBriefBuilder (`generate_content_brief`) -/

/-- The fixed `mandatory_links` table, in source order. -/
def mandatory_links : List (String × String) :=
  [("Immigration solicitors in Manchester", "https://solicitorsinmanchester.co.uk/"),
   ("Home Office", "https://www.gov.uk/government/organisations/home-office"),
   ("UKVI", "https://www.gov.uk/government/organisations/uk-visas-and-immigration"),
   ("ILR", "https://solicitorsinmanchester.co.uk/indefinite-leave-to-remain/"),
   ("Life in the UK test", "https://en.wikipedia.org/wiki/Life_in_the_United_Kingdom_test"),
   ("NHS", "https://www.nhs.uk/"),
   ("UK Visas & Immigration Services", "https://solicitorsinmanchester.co.uk/uk-visas-immigration-services/")]

/-- The internal-link entry built from one sitemap page. -/
def pageLinkEntry (page : SitePage) : LinkEntry :=
  { anchor_text := page.anchor_text
    url := page.url
    placement := "Natural context in relevant sections about " ++ page.title }

/-- The internal-link entry built from one `mandatory_links` row. -/
def mandatoryLinkEntry (row : String × String) : LinkEntry :=
  { anchor_text := row.1
    url := row.2
    placement := "Contextual placement in relevant content sections" }

/-- Model of `generate_content_brief`. -/
def generate_content_brief (analysis : CompetitorAnalysis)
    (sitemap_pages : List SitePage) : ContentBrief :=
  let mk := analysis.main_keyword
  let low := pyLower mk
  { heading_structure :=
      { h1 := "Complete Guide to " ++ mk ++ " in the UK 2025"
        h2s :=
          ["What Is " ++ mk ++ "?",
           "Who Needs " ++ mk ++ "?",
           "How Does " ++ mk ++ " Work?",
           "Eligibility Requirements for " ++ mk,
           "Application Process Step by Step",
           "Common Mistakes to Avoid",
           "Costs and Processing Times 2025",
           mk ++ " vs Alternative Options",
           "Real-Life Case Studies and Examples",
           "Frequently Asked Questions"] }
    snippet_opportunities :=
      ["What is " ++ low ++ "?",
       "How long does " ++ low ++ " take?",
       "How much does " ++ low ++ " cost?",
       "Who is eligible for " ++ low ++ "?",
       "What documents are needed for " ++ low ++ "?"]
    paa_questions :=
      ["What are the requirements for " ++ low ++ "?",
       "How do I apply for " ++ low ++ "?",
       "What is the success rate for " ++ low ++ "?",
       "Can I work with " ++ low ++ "?",
       "Can my family join me with " ++ low ++ "?",
       "What happens if my " ++ low ++ " is refused?",
       "How long can I stay with " ++ low ++ "?",
       "Can I extend my " ++ low ++ "?"]
    semantic_keywords :=
      ([low, "UK visa", "immigration", "application", "requirements",
        "documents", "processing time", "cost", "fee", "eligibility",
        "criteria", "guidance", "advice", "solicitor", "legal", "home office",
        "UKVI", "decision", "approval", "refusal", "appeal", "extension",
        "switch", "change", "status"] : List String)
        ++ analysis.secondary_keywords
    internal_links :=
      (sitemap_pages.take 12).map pageLinkEntry
        ++ mandatory_links.map mandatoryLinkEntry
    content_gaps :=
      ["Lack of real-life case studies",
       "Missing current 2025 processing times",
       "Inadequate cost breakdown",
       "Limited information on refusal handling",
       "Not enough practical examples"]
    user_intent :=
      "Mixed - informational (understanding requirements) and transactional (seeking legal help)" }

/-! ## ArticleComposer (`generate_full_article` and its section helpers) -/

/-- The three `introduction_templates`, with the format fields substituted. -/
def introduction_templates (topic topic_lower : String) : List String :=
  ["Have you found yourself wondering about " ++ topic ++ " as your circumstances change? Many people in your situation feel uncertain about what comes next and how to proceed correctly. This complete guide will walk you through everything you need to know about " ++ topic_lower ++ ", from understanding the basic requirements to navigating the application process successfully.",
   "When considering your options for " ++ topic_lower ++ ", it is completely normal to have questions and concerns. You might be thinking about the costs, the timeline, or whether you meet all the requirements. In this detailed guide, we will cover all aspects of " ++ topic_lower ++ " to help you make informed decisions about your next steps.",
   "Understanding " ++ topic_lower ++ " can feel overwhelming at first, but you do not have to figure it out alone. Whether you are planning your application or just gathering information, this guide provides clear, practical advice about " ++ topic_lower ++ " that you can trust."]

/-- Model of `_generate_what_is_section` (one random template choice). -/
def generate_what_is_section (main_keyword topic_lower : String) (r : Nat) : String :=
  pyChoice
    [main_keyword ++ " is an official immigration permission that allows you to stay in the UK under specific conditions. It forms part of the UK\x27s points-based immigration system and has particular requirements that must be met for approval.",
     "In simple terms, " ++ topic_lower ++ " provides legal permission to reside in the UK for a designated purpose and period. The exact conditions vary depending on your circumstances and the category you apply under."]
    r

/-- Model of `_generate_who_needs_section` (one random scenario choice). -/
def generate_who_needs_section (main_keyword topic_lower : String) (r : Nat) : String :=
  "You might need " ++ topic_lower ++ " if you are planning to "
    ++ pyChoice
        ["join family members in the UK",
         "work in a specific role or sector",
         "study at a UK educational institution",
         "start a business or invest in the UK"] r
    ++ ". This applies to individuals who want to stay in the UK for longer than a standard visit and meet the specific criteria set by UK Visas and Immigration."

/-- Model of `_generate_how_works_section`. -/
def generate_how_works_section (main_keyword topic_lower : String) : String :=
  "The process for " ++ topic_lower ++ " involves several stages that need careful attention. You typically start by checking your eligibility, then gather supporting documents, complete the application form, and finally attend any required appointments. Providing accurate information throughout is essential for a successful outcome."

/-- Model of `_generate_eligibility_section` (the join of `criteria[:3]` is a
fixed string). -/
def generate_eligibility_section (main_keyword topic_lower : String) : String :=
  "To qualify for " ++ topic_lower ++ ", you must meet specific eligibility criteria including meeting financial requirements, having suitable accommodation, meeting English language standards. The exact requirements depend on your circumstances and the category you are applying under."

/-- Model of `_generate_application_section` (the numbered step list is a
fixed string). -/
def generate_application_section (main_keyword topic_lower : String) : String :=
  "The application process for " ++ topic_lower ++ " involves these key steps:\n\n1. Check your eligibility and gather required documents\n2. Complete the online application form accurately\n3. Pay the application fee and immigration health surcharge\n4. Attend your biometric appointment if required\n5. Wait for a decision on your application"

/-- Model of `_generate_mistakes_section`. -/
def generate_mistakes_section (main_keyword topic_lower : String) : String :=
  "Common mistakes in " ++ topic_lower ++ " applications include providing incomplete or inaccurate information, submitting outdated or incorrect documents, missing application deadlines. These errors can lead to delays or refusal, so it is important to double-check everything before submitting your application."

/-- Model of `_generate_costs_section` (one `random.randint(1000, 3000)`). -/
def generate_costs_section (main_keyword topic_lower : String) (r : Nat) : String :=
  "The current cost for " ++ topic_lower ++ " applications starts from £"
    ++ toString (pyRandint 1000 3000 r)
    ++ ", plus the immigration health surcharge. Processing times typically range from 3 to 12 weeks depending on the service you choose and your individual circumstances."

/-- Model of `_generate_comparison_section`. -/
def generate_comparison_section (main_keyword topic_lower : String) : String :=
  "When considering " ++ topic_lower ++ ", it is helpful to understand how it compares to other immigration options. The main differences usually relate to eligibility criteria, processing times, costs, and the rights granted under each category."

/-- Model of `_generate_case_studies` (one random template choice). -/
def generate_case_studies (main_keyword topic_lower : String) (r : Nat) : String :=
  pyChoice
    ["One client came to us after their initial " ++ topic_lower ++ " application was refused due to missing documents. We helped them gather the correct evidence and successfully reapplied, securing their permission to stay in the UK.",
     "A family needed assistance with their " ++ topic_lower ++ " application as they were unsure about the financial requirements. We guided them through the process and their application was approved within the standard processing time."]
    r

/-- Model of `_generate_generic_section`. -/
def generate_generic_section (main_keyword topic_lower : String) : String :=
  "When dealing with " ++ topic_lower ++ ", it is important to understand all aspects of the process. Having the right information and guidance can make a significant difference to your application experience and outcome."

/-- Model of `_generate_cta_section`. -/
def generate_cta_section (main_keyword topic_lower : String) : String :=
  "## Get Professional Help with Your " ++ main_keyword ++ " Application\n\nIf you are feeling unsure about any part of the " ++ topic_lower ++ " process, our team of immigration solicitors in Manchester is here to help. We understand how important this application is for you and your family, and we are committed to making the process as smooth as possible.\n\n**Contact us today:**  \n📞 Phone: 0161 464 4140  \n📅 Book a consultation: [https://solicitorsinmanchester.co.uk/book-an-appointment/](https://solicitorsinmanchester.co.uk/book-an-appointment/)\n"

/-- Model of `_generate_conclusion`. -/
def generate_conclusion (main_keyword topic_lower : String) : String :=
  "## Conclusion\n\nApplying for " ++ topic_lower ++ " can seem complex, but with the right guidance and preparation, you can navigate the process successfully. Remember to double-check all requirements and consider seeking professional advice if you have any doubts about your application.\n\nWe hope this guide has provided you with valuable information about " ++ topic_lower ++ ". If you have further questions or need assistance with your specific situation, please do not hesitate to contact our team for personalised advice.\n"

/-- The heading-to-generator dispatch of `generate_full_article` (the chain
of substring tests on the H2 text); returns the section body together with
the next free index of the draw stream. -/
def dispatchSection (main_keyword topic_lower h2 : String) (g : Nat → Nat)
    (k : Nat) : String × Nat :=
  if substrIn "What Is" h2 then (generate_what_is_section main_keyword topic_lower (g k), k + 1)
  else if substrIn "Who Needs" h2 then (generate_who_needs_section main_keyword topic_lower (g k), k + 1)
  else if substrIn "How Does" h2 then (generate_how_works_section main_keyword topic_lower, k)
  else if substrIn "Eligibility" h2 then (generate_eligibility_section main_keyword topic_lower, k)
  else if substrIn "Application Process" h2 then (generate_application_section main_keyword topic_lower, k)
  else if substrIn "Common Mistakes" h2 then (generate_mistakes_section main_keyword topic_lower, k)
  else if substrIn "Costs" h2 then (generate_costs_section main_keyword topic_lower (g k), k + 1)
  else if substrIn "vs" h2 then (generate_comparison_section main_keyword topic_lower, k)
  else if substrIn "Case Studies" h2 then (generate_case_studies main_keyword topic_lower (g k), k + 1)
  else (generate_generic_section main_keyword topic_lower, k)

/-- The main-section loop of `generate_full_article`: for each H2 heading it
appends `"## {h2}\n"` and then the generated body followed by `"\n"`. -/
def sectionLoop (main_keyword topic_lower : String) (g : Nat → Nat) :
    List String → Nat → List String × Nat
  | [], k => ([], k)
  | h2 :: rest, k =>
    let c := dispatchSection main_keyword topic_lower h2 g k
    let next := sectionLoop main_keyword topic_lower g rest c.2
    (("## " ++ h2 ++ "\n") :: (c.1 ++ "\n") :: next.1, next.2)

/-- The `requirements` entry of `self.faq_answers`, with the format field
substituted. -/
def faq_answers_requirements (topic_lower : String) : String :=
  "The main requirements for " ++ topic_lower ++ " typically include meeting specific eligibility criteria, providing supporting documents, and paying the application fee. You will need to show that you meet the financial requirements, have suitable accommodation, and meet any language or knowledge requirements that apply to your situation."

/-- The `processing_time` entry of `self.faq_answers`, with the format
fields substituted. -/
def faq_answers_processing_time (topic_lower : String) (weeks : Nat) : String :=
  "Processing times for " ++ topic_lower ++ " applications can vary depending on several factors. Standard processing usually takes between " ++ toString weeks ++ " weeks, though priority services may be available for faster decisions. The current processing times are updated regularly on the GOV.UK website."

/-- The `cost` entry of `self.faq_answers`, with the format field
substituted. -/
def faq_answers_cost (topic_lower : String) : String :=
  "The cost of applying for " ++ topic_lower ++ " includes the application fee and the immigration health surcharge. The total amount depends on your circumstances and where you are applying from. You should check the latest fees on the official GOV.UK website before submitting your application."

/-- The `documents` entry of `self.faq_answers`, with the format field
substituted. -/
def faq_answers_documents (topic_lower : String) : String :=
  "You will typically need to provide several documents with your " ++ topic_lower ++ " application, including proof of identity, financial evidence, and supporting documents specific to your situation. The exact requirements vary depending on your circumstances, so it is important to check the latest guidance."

/-- The inline generic deferral answer of the FAQ loop. -/
def faq_generic_answer (topic_lower : String) : String :=
  "This depends on your specific circumstances and the current immigration rules. For the most accurate information about " ++ topic_lower ++ ", it is best to check the official GOV.UK website or speak with an immigration adviser who can assess your situation."

/-- The keyword-in-question FAQ answer routing of `generate_full_article`
(the chain of substring tests on the lower-cased question). -/
def faqAnswer (topic_lower question : String) (g : Nat → Nat) (k : Nat) :
    String × Nat :=
  let q := pyLower question
  if substrIn "requirement" q then
    (faq_answers_requirements topic_lower, k)
  else if substrIn "how long" q || substrIn "time" q then
    (faq_answers_processing_time topic_lower (pyRandint 3 12 (g k)), k + 1)
  else if substrIn "cost" q || substrIn "how much" q then
    (faq_answers_cost topic_lower, k)
  else if substrIn "document" q then
    (faq_answers_documents topic_lower, k)
  else
    (faq_generic_answer topic_lower, k)

/-- The FAQ loop of `generate_full_article`: for each PAA question (at most
the first 8) it appends `"### {question}\n"` and the routed answer followed
by `"\n"`. -/
def faqLoop (topic_lower : String) (g : Nat → Nat) :
    List String → Nat → List String × Nat
  | [], k => ([], k)
  | q :: rest, k =>
    let a := faqAnswer topic_lower q g k
    let next := faqLoop topic_lower g rest a.2
    (("### " ++ q ++ "\n") :: (a.1 ++ "\n") :: next.1, next.2)

/-- Model of `generate_full_article` as its `article_parts` list: the H1
part, the randomly chosen introduction, the main-section loop, the FAQ
header and loop over `paa_questions[:8]`, the CTA and the conclusion. -/
def composeParts (brief : ContentBrief) (analysis : CompetitorAnalysis)
    (g : Nat → Nat) : List String :=
  let main_keyword := analysis.main_keyword
  let topic_lower := pyLower main_keyword
  let intro := pyChoice (introduction_templates main_keyword topic_lower) (g 0)
  let secs := sectionLoop main_keyword topic_lower g brief.heading_structure.h2s 1
  let faqs := faqLoop topic_lower g (brief.paa_questions.take 8) secs.2
  ("# " ++ brief.heading_structure.h1 ++ "\n")
    :: (intro ++ "\n")
    :: (secs.1
        ++ "## Frequently Asked Questions\n" :: faqs.1
        ++ [generate_cta_section main_keyword topic_lower,
            generate_conclusion main_keyword topic_lower])

/-- Model of `generate_full_article` (`"\n".join(article_parts)`). -/
def generate_full_article (brief : ContentBrief) (analysis : CompetitorAnalysis)
    (g : Nat → Nat) : String :=
  String.intercalate "\n" (composeParts brief analysis g)

/-! ## MetadataGenerator (`generate_seo_metadata`) -/

/-- Model of `generate_seo_metadata`. -/
def generate_seo_metadata (brief : ContentBrief)
    (analysis : CompetitorAnalysis) : SeoMetadata :=
  let main_keyword := analysis.main_keyword
  let topic_lower := pyLower main_keyword
  { main_keyword := main_keyword
    secondary_keywords := analysis.secondary_keywords.take 8
    meta_titles :=
      [main_keyword ++ " UK Requirements 2025 | Manchester Solicitors",
       "Complete Guide to " ++ main_keyword ++ " 2025 | Legal Advice Manchester",
       main_keyword ++ " Application Process & Costs 2025"]
    meta_descriptions :=
      ["Get expert help with your " ++ topic_lower ++ " application. Learn about requirements, costs and processing times 2025. Contact our Manchester solicitors today.",
       "Complete 2025 guide to " ++ topic_lower ++ " in the UK. Understand eligibility, application process and avoid common mistakes with our legal support.",
       "Need help with " ++ topic_lower ++ "? Our Manchester immigration solicitors provide clear guidance and professional support for your application."]
    slug_url := "/" ++ replaceSpaceDash topic_lower ++ "-guide-2025/"
    schema_recommendations :=
      ["Article Schema", "FAQ Schema", "LocalBusiness Schema", "Breadcrumb Schema"] }

/-! ## PipelineStateMachine (session state of `main` / `show_step_1..3`) -/

/-- The Streamlit session state relevant to the pipeline: the current step
(1 = Analysis, 2 = Writing, 3 = Metadata), the two completion flags and the
stored artifacts. -/
structure SessionState where
  current_step : Nat
  analysis_complete : Bool
  article_generated : Bool
  analysis : Option CompetitorAnalysis
  brief : Option ContentBrief
  article : Option String

/-- The session state created by `main`'s initialisation block. -/
def initialSession : SessionState :=
  { current_step := 1
    analysis_complete := false
    article_generated := false
    analysis := none
    brief := none
    article := none }

/-- The user-visible events of the app: clicking the analyze button in step
1 (with the pasted text and the fetched pages), rendering step 2 (which
runs the guard and, when due, the article generation with draw stream `g`),
clicking the metadata button in step 2, and clicking reset in step 3. -/
inductive UserAction where
  | analyzeClick (content : String) (pages : List SitePage)
  | renderStep2 (g : Nat → Nat)
  | metadataClick
  | resetClick

/-- One transition of the session-state machine, as implemented by
`show_step_1` (analysis and brief stored, step set to 2), the guard and
generation block of `show_step_2` (a missing analysis redirects to step 1
and changes nothing else), the metadata button (step set to 3), and the
reset button of `show_step_3` (every session key deleted, so the next run
reinitialises the state). -/
def sessionStep (s : SessionState) : UserAction → SessionState
  | .analyzeClick content pages =>
    if s.current_step = 1 ∧ content ≠ "" then
      let analysis := analyze_competitor_content content
      { s with
          analysis := some analysis
          brief := some (generate_content_brief analysis pages)
          analysis_complete := true
          current_step := 2 }
    else s
  | .renderStep2 g =>
    if s.current_step = 2 then
      if s.analysis_complete = false then { s with current_step := 1 }
      else if s.article_generated = false then
        match s.brief, s.analysis with
        | some brief, some analysis =>
          { s with
              article := some (generate_full_article brief analysis g)
              article_generated := true }
        | _, _ => s
      else s
    else s
  | .metadataClick =>
    if s.current_step = 2 ∧ s.analysis_complete = true then
      { s with current_step := 3 }
    else s
  | .resetClick =>
    if s.current_step = 3 then initialSession else s

/-! ## Supporting lemmas -/

theorem stringMk_length (l : List Char) : (String.mk l).length = l.length := rfl

theorem titleAux_length (b : Bool) (l : List Char) :
    (titleAux b l).length = l.length := by
  induction l generalizing b with
  | nil => rfl
  | cons c cs ih => simp [titleAux, ih]

theorem pyTitle_length (s : String) : (pyTitle s).length = s.length := by
  show (titleAux false s.toList).length = s.length
  rw [titleAux_length]
  rfl

/-- Every token produced by the analyzer tokenizer has length at least 4. -/
theorem findWords_length {content : String} {w : String}
    (hw : w ∈ findWords content) : 4 ≤ w.length := by
  unfold findWords at hw
  obtain ⟨r, hr, rfl⟩ := List.mem_map.mp hw
  obtain ⟨-, hp⟩ := List.mem_filter.mp hr
  rw [Bool.and_eq_true, decide_eq_true_iff] at hp
  rw [stringMk_length]
  exact hp.2

theorem mem_bump_key {f : List (String × Nat)} {w : String} {p : String × Nat}
    (hp : p ∈ bump f w) : p.1 = w ∨ ∃ q ∈ f, p.1 = q.1 := by
  induction f with
  | nil =>
    simp only [bump, List.mem_singleton] at hp
    left; rw [hp]
  | cons q rest ih =>
    obtain ⟨k, v⟩ := q
    simp only [bump] at hp
    split at hp
    · rcases List.mem_cons.mp hp with h | h
      · right; exact ⟨(k, v), List.mem_cons_self .., by rw [h]⟩
      · right; exact ⟨p, List.mem_cons_of_mem _ h, rfl⟩
    · rcases List.mem_cons.mp hp with h | h
      · right; exact ⟨(k, v), List.mem_cons_self .., by rw [h]⟩
      · rcases ih h with h1 | ⟨q, hq, h1⟩
        · left; exact h1
        · right; exact ⟨q, List.mem_cons_of_mem _ hq, h1⟩

theorem countWords_key :
    ∀ (ws : List String) (acc : List (String × Nat)) (p : String × Nat),
      p ∈ countWords ws acc → p.1 ∈ ws ∨ ∃ q ∈ acc, p.1 = q.1 := by
  intro ws
  induction ws with
  | nil => intro acc p hp; right; exact ⟨p, hp, rfl⟩
  | cons w ws ih =>
    intro acc p hp
    simp only [countWords] at hp
    rcases ih _ p hp with h | ⟨q, hq, h1⟩
    · left; exact List.mem_cons_of_mem _ h
    · split at hq
      · rcases mem_bump_key hq with h2 | ⟨q2, hq2, h2⟩
        · left; rw [h1, h2]; exact List.mem_cons_self ..
        · right; exact ⟨q2, hq2, h1.trans h2⟩
      · right; exact ⟨q, hq, h1⟩

/-- Every key of the frequency table is a token of the input. -/
theorem wordFreq_key {content : String} {p : String × Nat}
    (hp : p ∈ wordFreq content) : p.1 ∈ findWords content := by
  rcases countWords_key _ _ _ hp with h | ⟨q, hq, -⟩
  · exact h
  · exact absurd hq (List.not_mem_nil q)

theorem mem_insertDesc {p q : String × Nat} :
    ∀ {l : List (String × Nat)}, p ∈ insertDesc q l → p = q ∨ p ∈ l := by
  intro l
  induction l with
  | nil => intro hp; left; simpa [insertDesc] using hp
  | cons r rest ih =>
    intro hp
    simp only [insertDesc] at hp
    split at hp
    · rcases List.mem_cons.mp hp with h | h
      · left; exact h
      · right; exact h
    · rcases List.mem_cons.mp hp with h | h
      · right; rw [h]; exact List.mem_cons_self ..
      · rcases ih h with h1 | h1
        · left; exact h1
        · right; exact List.mem_cons_of_mem _ h1

theorem mem_sortDesc_aux :
    ∀ (l acc : List (String × Nat)) (p : String × Nat),
      p ∈ l.foldl (fun acc q => insertDesc q acc) acc → p ∈ l ∨ p ∈ acc := by
  intro l
  induction l with
  | nil => intro acc p hp; right; exact hp
  | cons q rest ih =>
    intro acc p hp
    rcases ih _ p hp with h | h
    · left; exact List.mem_cons_of_mem _ h
    · rcases mem_insertDesc h with h1 | h1
      · left; rw [h1]; exact List.mem_cons_self ..
      · right; exact h1

theorem mem_sortDesc {l : List (String × Nat)} {p : String × Nat}
    (hp : p ∈ sortDesc l) : p ∈ l := by
  rcases mem_sortDesc_aux l [] p hp with h | h
  · exact h
  · exact absurd h (List.not_mem_nil p)

/-- The provisional keyword is the fixed default or a frequency-table key. -/
theorem provisionalKeyword_cases (content : String) :
    provisionalKeyword content = "immigration"
      ∨ ∃ p ∈ wordFreq content, provisionalKeyword content = p.1 := by
  unfold provisionalKeyword
  cases h : sortedWords content with
  | nil => left; rfl
  | cons p rest =>
    right
    refine ⟨p, ?_, rfl⟩
    have hmem : p ∈ sortedWords content := by rw [h]; exact List.mem_cons_self ..
    exact mem_sortDesc hmem

theorem hasKey_exists {freq : List (String × Nat)} {w : String}
    (h : hasKey freq w = true) : ∃ p ∈ freq, p.1 = w := by
  unfold hasKey at h
  rcases List.any_eq_true.mp h with ⟨p, hp, he⟩
  exact ⟨p, hp, by simpa using he⟩

/-- The override loop returns its input keyword or a frequency-table key. -/
theorem overrideScan_cases (freq : List (String × Nat)) (main : String) :
    ∀ l : List String,
      overrideScan freq main l = main
        ∨ hasKey freq (overrideScan freq main l) = true := by
  intro l
  induction l with
  | nil => left; rfl
  | cons t ts ih =>
    unfold overrideScan
    split
    · next h => right; exact (Bool.and_eq_true .. ▸ h).1
    · exact ih

/-- The override loop is the first allow-list term that is a table key and
differs from the provisional keyword, defaulting to the provisional one. -/
theorem overrideScan_eq_find (freq : List (String × Nat)) (main : String) :
    ∀ l : List String,
      overrideScan freq main l
        = (l.find? (fun t => hasKey freq t && t != main)).getD main := by
  intro l
  induction l with
  | nil => rfl
  | cons t ts ih =>
    unfold overrideScan
    rw [List.find?_cons]
    cases h : (hasKey freq t && t != main) with
    | true => simp [h]
    | false => simp [h, ih]

theorem overrideScan_nil_freq (main : String) :
    ∀ l : List String, overrideScan [] main l = main := by
  intro l
  induction l with
  | nil => rfl
  | cons t ts ih => simpa [overrideScan, hasKey] using ih

theorem countWords_all_stop :
    ∀ (ws : List String) (acc : List (String × Nat)),
      (∀ w ∈ ws, w ∈ stop_words) → countWords ws acc = acc := by
  intro ws
  induction ws with
  | nil => intro acc _; rfl
  | cons w ws ih =>
    intro acc h
    simp only [countWords]
    rw [if_neg (fun hc => hc.1 (h w (List.mem_cons_self ..)))]
    exact ih acc (fun x hx => h x (List.mem_cons_of_mem _ hx))

/-! ## Claim theorems -/

/-- Claim C3, counterexample part: no input text ever receives the quality
tier "low" — `analyze_competitor_content` only ever assigns "high" or
"medium", so the claimed three-valued tier {low, medium, high} with an
attainable "low" is false. -/
theorem quality_tier_low_unattainable :
    ¬ ∃ content : String,
        (analyze_competitor_content content).content_quality = "low" := by
  rintro ⟨content, h⟩
  show False
  simp only [analyze_competitor_content] at h
  split at h
  · exact absurd h (by decide)
  · exact absurd h (by decide)

/-- Claim C3, amended: the quality tier of an analysis ranges over the two
values "high" and "medium" only: it is "high" exactly when the word count
exceeds 800 and "medium" otherwise; "low" is never produced. -/
theorem quality_tier_two_valued (content : String) :
    ((analyze_competitor_content content).content_quality
        = if 800 < (analyze_competitor_content content).word_count
          then "high" else "medium")
      ∧ (analyze_competitor_content content).content_quality ≠ "low" := by
  constructor
  · rfl
  · show ¬ _
    simp only [analyze_competitor_content]
    split
    · decide
    · decide

/-- Claim C7: on any input all of whose kept tokens are stop words — the
empty string in particular — the analyzer never fails and returns the fixed
default keyword "Immigration" with an empty secondary-keyword list; for the
empty string the word count is additionally 0. -/
theorem analyze_degenerate_input (content : String)
    (h : ∀ w ∈ findWords content, w ∈ stop_words) :
    (analyze_competitor_content content).main_keyword = "Immigration"
      ∧ (analyze_competitor_content content).secondary_keywords = []
      ∧ (content = "" → (analyze_competitor_content content).word_count = 0) := by
  have hfreq : wordFreq content = [] := countWords_all_stop _ [] h
  have hsorted : sortedWords content = [] := by
    unfold sortedWords
    rw [hfreq]
    rfl
  have hprov : provisionalKeyword content = "immigration" := by
    unfold provisionalKeyword
    rw [hsorted]
  have hmain : mainKeywordRaw content = "immigration" := by
    unfold mainKeywordRaw
    rw [hfreq, hprov]
    exact overrideScan_nil_freq _ _
  refine ⟨?_, ?_, ?_⟩
  · show pyTitle (mainKeywordRaw content) = "Immigration"
    rw [hmain]
    decide
  · show (((sortedWords content).drop 1).take 10).filterMap _ = []
    rw [hsorted]
    rfl
  · intro he
    show (pySplit content).length = 0
    rw [he]
    rfl

/-- Witness for C7: the empty string satisfies the hypothesis and yields the
default keyword, empty secondary keywords and word count 0. -/
theorem analyze_degenerate_input_witness :
    (analyze_competitor_content "").main_keyword = "Immigration"
      ∧ (analyze_competitor_content "").secondary_keywords = []
      ∧ (analyze_competitor_content "").word_count = 0 := by
  have h := analyze_degenerate_input "" (by decide)
  exact ⟨h.1, h.2.1, h.2.2 rfl⟩

/-- Claim C9: `generate_content_brief` is deterministic — two runs on the
same analysis and page list produce equal briefs (the stage takes no random
source at all). -/
theorem brief_deterministic (analysis : CompetitorAnalysis)
    (pages : List SitePage) (b1 b2 : ContentBrief)
    (h1 : b1 = generate_content_brief analysis pages)
    (h2 : b2 = generate_content_brief analysis pages) : b1 = b2 := by
  rw [h1, h2]

/-- Witness for C9 at a concrete analysis and page list. -/
theorem brief_deterministic_witness :
    generate_content_brief (analyze_competitor_content "") []
      = generate_content_brief (analyze_competitor_content "") [] :=
  brief_deterministic (analyze_competitor_content "") [] _ _ rfl rfl

/-- Claim C10 (implicit): the selected main keyword always has length at
least 4, because tokenization only retains tokens of length at least 4;
hence the length-2 allow-list term "uk" (title-cased "Uk") can never be the
main keyword, even though it is on the allow-list. -/
theorem main_keyword_min_length (content : String) :
    4 ≤ (analyze_competitor_content content).main_keyword.length
      ∧ (analyze_competitor_content content).main_keyword ≠ "Uk"
      ∧ "uk" ∈ immigration_terms
      ∧ pyTitle "uk" = "Uk" ∧ "uk".length < 4 := by
  have hlen : 4 ≤ (analyze_competitor_content content).main_keyword.length := by
    show 4 ≤ (pyTitle (mainKeywordRaw content)).length
    rw [pyTitle_length]
    rcases overrideScan_cases (wordFreq content) (provisionalKeyword content)
        immigration_terms with h | h
    · unfold mainKeywordRaw
      rw [h]
      rcases provisionalKeyword_cases content with h1 | ⟨p, hp, h1⟩
      · rw [h1]; decide
      · rw [h1]; exact findWords_length (wordFreq_key hp)
    · rcases hasKey_exists h with ⟨p, hp, he⟩
      unfold mainKeywordRaw
      rw [← he]
      exact findWords_length (wordFreq_key hp)
  refine ⟨hlen, ?_, by decide, by decide, by decide⟩
  intro he
  rw [he] at hlen
  exact absurd hlen (by decide)

/-- Claim C2, counterexample: for the text "spouse spouse spouse visa" the
allow-list term with the highest frequency rank is "spouse" (frequency 3),
yet the analyzer returns "Visa" (frequency 1), because the override loop
scans the allow-list in its own fixed order — "visa" precedes "spouse"
there — not in frequency-ranked order. -/
theorem keyword_override_not_frequency_ranked :
    hasKey (wordFreq "spouse spouse spouse visa") "spouse" = true
      ∧ "spouse" ∈ immigration_terms
      ∧ sortedWords "spouse spouse spouse visa" = [("spouse", 3), ("visa", 1)]
      ∧ (analyze_competitor_content "spouse spouse spouse visa").main_keyword
          = "Visa"
      ∧ (analyze_competitor_content "spouse spouse spouse visa").main_keyword
          ≠ "Spouse" := by
  refine ⟨by decide, by decide, by decide, by decide, by decide⟩

/-- Claim C2, amended: whenever the frequency table contains an allow-list
term, the main keyword is the title-cased first term of the allow-list — in
the allow-list's own fixed scan order — that is a table key and differs
from the provisional top-frequency keyword, defaulting to the provisional
keyword when every present allow-list term equals it; in either case the
result is the title-casing of an allow-list term. -/
theorem keyword_override_scan_order (content : String)
    (h : ∃ t, t ∈ immigration_terms ∧ hasKey (wordFreq content) t = true) :
    ((analyze_competitor_content content).main_keyword
        = pyTitle ((immigration_terms.find?
            (fun t => hasKey (wordFreq content) t
              && t != provisionalKeyword content)).getD
            (provisionalKeyword content)))
      ∧ ∃ t, t ∈ immigration_terms
          ∧ (analyze_competitor_content content).main_keyword = pyTitle t := by
  obtain ⟨t0, ht0, hk0⟩ := h
  have hmain : (analyze_competitor_content content).main_keyword
      = pyTitle (mainKeywordRaw content) := rfl
  have hscan := overrideScan_eq_find (wordFreq content)
    (provisionalKeyword content) immigration_terms
  constructor
  · rw [hmain]
    unfold mainKeywordRaw
    rw [hscan]
  · cases hfind : immigration_terms.find?
        (fun t => hasKey (wordFreq content) t && t != provisionalKeyword content) with
    | some t =>
      refine ⟨t, List.mem_of_find?_eq_some hfind, ?_⟩
      rw [hmain]
      unfold mainKeywordRaw
      rw [hscan, hfind]
      rfl
    | none =>
      have hall := List.find?_eq_none.mp hfind t0 ht0
      have hprov : t0 = provisionalKeyword content := by
        by_contra hne
        exact hall (by simp [hk0, hne])
      refine ⟨t0, ht0, ?_⟩
      rw [hmain]
      unfold mainKeywordRaw
      rw [hscan, hfind, Option.getD_none, ← hprov]

/-- Witness for C2 at the text "spouse spouse spouse visa", whose frequency
table contains the allow-list term "visa". -/
theorem keyword_override_scan_order_witness :
    (∃ t, t ∈ immigration_terms
        ∧ hasKey (wordFreq "spouse spouse spouse visa") t = true)
      ∧ ((analyze_competitor_content "spouse spouse spouse visa").main_keyword
          = pyTitle ((immigration_terms.find?
              (fun t => hasKey (wordFreq "spouse spouse spouse visa") t
                && t != provisionalKeyword "spouse spouse spouse visa")).getD
              (provisionalKeyword "spouse spouse spouse visa"))) := by
  have h := keyword_override_scan_order "spouse spouse spouse visa"
    ⟨"visa", by decide, by decide⟩
  exact ⟨⟨"visa", by decide, by decide⟩, h.1⟩

/-! ## Structure of the composed article -/

/-- Interleaving of H2 headings (as `"## {h2}\n"` parts) with their bodies,
one body per heading. -/
def h2Blocks : List String → List String → List String
  | hd :: hs, b :: bs => ("## " ++ hd ++ "\n") :: b :: h2Blocks hs bs
  | _, _ => []

/-- Interleaving of FAQ questions (as `"### {q}\n"` parts) with their routed
answers, one answer per question. -/
def faqBlocks : List String → List String → List String
  | q :: qs, a :: bs => ("### " ++ q ++ "\n") :: a :: faqBlocks qs bs
  | _, _ => []

/-- A heading that matches none of the dispatch markers of
`generate_full_article`. -/
def noMarker (hd : String) : Prop :=
  substrIn "What Is" hd = false ∧ substrIn "Who Needs" hd = false
    ∧ substrIn "How Does" hd = false ∧ substrIn "Eligibility" hd = false
    ∧ substrIn "Application Process" hd = false
    ∧ substrIn "Common Mistakes" hd = false ∧ substrIn "Costs" hd = false
    ∧ substrIn "vs" hd = false ∧ substrIn "Case Studies" hd = false

/-- The structural contract of the composer: the article parts are exactly
the H1 part, the chosen introduction, one heading/body pair per H2 heading,
the FAQ header, one question/answer pair per PAA question, then the CTA and
conclusion; moreover a heading matching no dispatch marker produces the
generic fallback section rather than failing. -/
def composeStructured (brief : ContentBrief) (analysis : CompetitorAnalysis)
    (g : Nat → Nat) : Prop :=
  (∃ bodies answers : List String,
      bodies.length = brief.heading_structure.h2s.length
        ∧ answers.length = brief.paa_questions.length
        ∧ composeParts brief analysis g =
            ("# " ++ brief.heading_structure.h1 ++ "\n")
              :: (pyChoice
                    (introduction_templates analysis.main_keyword
                      (pyLower analysis.main_keyword)) (g 0) ++ "\n")
              :: (h2Blocks brief.heading_structure.h2s bodies
                  ++ "## Frequently Asked Questions\n"
                      :: faqBlocks brief.paa_questions answers
                  ++ [generate_cta_section analysis.main_keyword
                        (pyLower analysis.main_keyword),
                      generate_conclusion analysis.main_keyword
                        (pyLower analysis.main_keyword)]))
    ∧ ∀ (hd : String) (k : Nat), noMarker hd →
        (dispatchSection analysis.main_keyword (pyLower analysis.main_keyword)
            hd g k).1
          = generate_generic_section analysis.main_keyword
              (pyLower analysis.main_keyword)

theorem sectionLoop_blocks (m t : String) (g : Nat → Nat) :
    ∀ (hs : List String) (k : Nat),
      ∃ bodies : List String,
        bodies.length = hs.length
          ∧ (sectionLoop m t g hs k).1 = h2Blocks hs bodies := by
  intro hs
  induction hs with
  | nil => intro k; exact ⟨[], rfl, rfl⟩
  | cons hd hs ih =>
    intro k
    obtain ⟨bs, hlen, heq⟩ := ih (dispatchSection m t hd g k).2
    refine ⟨((dispatchSection m t hd g k).1 ++ "\n") :: bs, by simp [hlen], ?_⟩
    simp only [sectionLoop, h2Blocks, heq]

theorem faqLoop_blocks (t : String) (g : Nat → Nat) :
    ∀ (qs : List String) (k : Nat),
      ∃ answers : List String,
        answers.length = qs.length
          ∧ (faqLoop t g qs k).1 = faqBlocks qs answers := by
  intro qs
  induction qs with
  | nil => intro k; exact ⟨[], rfl, rfl⟩
  | cons q qs ih =>
    intro k
    obtain ⟨bs, hlen, heq⟩ := ih (faqAnswer t q g k).2
    refine ⟨((faqAnswer t q g k).1 ++ "\n") :: bs, by simp [hlen], ?_⟩
    simp only [faqLoop, faqBlocks, heq]

theorem composeStructured_of_paa_le (brief : ContentBrief)
    (analysis : CompetitorAnalysis) (g : Nat → Nat)
    (h : brief.paa_questions.length ≤ 8) :
    composeStructured brief analysis g := by
  constructor
  · have htake : brief.paa_questions.take 8 = brief.paa_questions :=
      List.take_of_length_le h
    obtain ⟨bodies, hb, hsec⟩ := sectionLoop_blocks analysis.main_keyword
      (pyLower analysis.main_keyword) g brief.heading_structure.h2s 1
    obtain ⟨answers, ha, hfaq⟩ := faqLoop_blocks
      (pyLower analysis.main_keyword) g (brief.paa_questions.take 8)
      (sectionLoop analysis.main_keyword (pyLower analysis.main_keyword) g
        brief.heading_structure.h2s 1).2
    refine ⟨bodies, answers, hb, ?_, ?_⟩
    · rw [ha, htake]
    · simp only [composeParts]
      rw [hsec, hfaq, htake]
  · intro hd k hnm
    obtain ⟨h1, h2, h3, h4, h5, h6, h7, h8, h9⟩ := hnm
    simp only [dispatchSection, h1, h2, h3, h4, h5, h6, h7, h8, h9,
      Bool.false_eq_true, if_false]

/-- Claim C5: for every brief whose PAA list respects the data model's fixed
count (at most 8 questions), every analysis, and every outcome of the random
draws, the composer produces exactly one section per H2 heading, one FAQ
section with one sub-answer per PAA question, one CTA and one conclusion,
and it never fails — an unmatched heading yields the generic section. -/
theorem compose_section_structure (brief : ContentBrief)
    (analysis : CompetitorAnalysis) (g : Nat → Nat)
    (h : brief.paa_questions.length ≤ 8) :
    composeStructured brief analysis g :=
  composeStructured_of_paa_le brief analysis g h

/-- Witness for C5 at the brief built from the empty-input analysis, which
has exactly 8 PAA questions. -/
theorem compose_section_structure_witness :
    (generate_content_brief (analyze_competitor_content "")
        []).paa_questions.length ≤ 8
      ∧ composeStructured
          (generate_content_brief (analyze_competitor_content "") [])
          (analyze_competitor_content "") (fun _ => 0) :=
  ⟨by decide,
   compose_section_structure
     (generate_content_brief (analyze_competitor_content "") [])
     (analyze_competitor_content "") (fun _ => 0) (by decide)⟩

/-! ## The end-to-end scenario -/

/-- The competitor text of the end-to-end scenario. -/
def endToEndText : String := "visa visa visa application application requirements"

/-- The single supplied page of the end-to-end scenario. -/
def spousePage : SitePage :=
  { url := "https://solicitorsinmanchester.co.uk/spouse-visa/"
    title := "Spouse Visa"
    anchor_text := "spouse visa requirements" }

/-- Claim C1, counterexample: on the end-to-end scenario text the analyzer
returns main keyword "Application", not "Visa" — the override loop skips
the allow-list term "visa" because it equals the provisional top-frequency
keyword and then overrides with "application" — and accordingly the slug is
"/application-guide-2025/", not a /visa-guide-year/ slug. -/
theorem end_to_end_not_visa :
    (analyze_competitor_content endToEndText).main_keyword = "Application"
      ∧ (analyze_competitor_content endToEndText).main_keyword ≠ "Visa"
      ∧ (generate_seo_metadata
            (generate_content_brief (analyze_competitor_content endToEndText)
              [spousePage])
            (analyze_competitor_content endToEndText)).slug_url
          = "/application-guide-2025/" := by
  refine ⟨by decide, by decide, by decide⟩

/-- Claim C1, amended: for the end-to-end scenario the pipeline yields main
keyword "Application", a brief whose H1 contains "Application", an article
with exactly 10 H2-derived sections plus a FAQ block of 8 answers, a CTA
and a conclusion (for every outcome of the random draws), and the slug
"/application-guide-2025/". -/
theorem end_to_end_scenario (g : Nat → Nat) :
    (analyze_competitor_content endToEndText).main_keyword = "Application"
      ∧ substrIn "Application"
          (generate_content_brief (analyze_competitor_content endToEndText)
              [spousePage]).heading_structure.h1 = true
      ∧ (generate_content_brief (analyze_competitor_content endToEndText)
            [spousePage]).heading_structure.h2s.length = 10
      ∧ (generate_content_brief (analyze_competitor_content endToEndText)
            [spousePage]).paa_questions.length = 8
      ∧ composeStructured
          (generate_content_brief (analyze_competitor_content endToEndText)
            [spousePage])
          (analyze_competitor_content endToEndText) g
      ∧ (generate_seo_metadata
            (generate_content_brief (analyze_competitor_content endToEndText)
              [spousePage])
            (analyze_competitor_content endToEndText)).slug_url
          = "/application-guide-2025/" := by
  refine ⟨by decide, by decide, by decide, by decide, ?_, by decide⟩
  exact composeStructured_of_paa_le _ _ g (by decide)

/-- Claim C4: the brief's internal links are exactly the first
`min(12, len(pages))` page-derived entries in source order followed by all
mandatory entries in table order, of total length
`min(12, len(pages)) + len(mandatory_links)`, and no de-duplication occurs:
a page URL equal to a mandatory URL appears at least twice. -/
theorem internal_links_shape (analysis : CompetitorAnalysis)
    (pages : List SitePage) :
    ((generate_content_brief analysis pages).internal_links
        = (pages.take 12).map pageLinkEntry
            ++ mandatory_links.map mandatoryLinkEntry)
      ∧ (generate_content_brief analysis pages).internal_links.length
          = min 12 pages.length + mandatory_links.length
      ∧ ∀ p ∈ pages.take 12, ∀ row ∈ mandatory_links, p.url = row.2 →
          2 ≤ (generate_content_brief analysis pages).internal_links.countP
                (fun e => e.url == row.2) := by
  have heq : (generate_content_brief analysis pages).internal_links
      = (pages.take 12).map pageLinkEntry
          ++ mandatory_links.map mandatoryLinkEntry := rfl
  refine ⟨heq, ?_, ?_⟩
  · rw [heq]
    simp [List.length_take]
  · intro p hp row hrow hurl
    rw [heq, List.countP_append]
    have h1 : 0 < ((pages.take 12).map pageLinkEntry).countP
        (fun e => e.url == row.2) := by
      refine List.countP_pos_iff.mpr ⟨pageLinkEntry p, List.mem_map_of_mem _ hp, ?_⟩
      simp [pageLinkEntry, hurl]
    have h2 : 0 < (mandatory_links.map mandatoryLinkEntry).countP
        (fun e => e.url == row.2) := by
      refine List.countP_pos_iff.mpr
        ⟨mandatoryLinkEntry row, List.mem_map_of_mem _ hrow, ?_⟩
      simp [mandatoryLinkEntry]
    omega

/-- Witness for C4: one supplied page whose URL coincides with the mandatory
NHS URL yields that URL at least twice among the brief's internal links. -/
theorem internal_links_shape_witness :
    2 ≤ (generate_content_brief (analyze_competitor_content "")
          [{ url := "https://www.nhs.uk/", title := "Nhs",
             anchor_text := "nhs" }]).internal_links.countP
          (fun e => e.url == "https://www.nhs.uk/") := by
  have h := (internal_links_shape (analyze_competitor_content "")
    [{ url := "https://www.nhs.uk/", title := "Nhs", anchor_text := "nhs" }]).2.2
    { url := "https://www.nhs.uk/", title := "Nhs", anchor_text := "nhs" }
    (by decide) ("NHS", "https://www.nhs.uk/") (by decide) rfl
  exact h

/-- Claim C6, counterexample: the question
"What are the requirements, cost and documents for visa?" contains both
"cost" and "document" yet routes to the requirements template, because the
"requirement" predicate is tested first — so not every cost-and-document
question reaches the cost branch. -/
theorem faq_routing_requirement_first :
    substrIn "cost"
        (pyLower "What are the requirements, cost and documents for visa?") = true
      ∧ substrIn "document"
          (pyLower "What are the requirements, cost and documents for visa?") = true
      ∧ (faqAnswer "visa" "What are the requirements, cost and documents for visa?"
            (fun _ => 0) 0).1
          = faq_answers_requirements "visa"
      ∧ faq_answers_requirements "visa" ≠ faq_answers_cost "visa" := by
  refine ⟨by decide, by decide, by decide, by decide⟩

/-- Claim C6, amended: the FAQ routing tests its predicates in the fixed
order requirement, how long/time, cost/how much, document, generic, and the
first match wins; hence every question containing both "cost" and
"document" and matching no earlier predicate (no "requirement", "how long"
or "time") routes to the cost-template branch. -/
theorem faq_routing_cost_before_document (topic q : String) (g : Nat → Nat)
    (k : Nat) (hc : substrIn "cost" (pyLower q) = true)
    (hd : substrIn "document" (pyLower q) = true)
    (hr : substrIn "requirement" (pyLower q) = false)
    (hl : substrIn "how long" (pyLower q) = false)
    (ht : substrIn "time" (pyLower q) = false) :
    (faqAnswer topic q g k).1 = faq_answers_cost topic := by
  simp only [faqAnswer, hc, hd, hr, hl, ht, Bool.false_eq_true, if_false,
    Bool.false_or, Bool.true_or, if_true]

/-- Witness for C6 at a question containing "cost" and "document" but none
of the earlier keywords. -/
theorem faq_routing_cost_before_document_witness :
    substrIn "cost"
        (pyLower "What does visa cost and which documents are needed?") = true
      ∧ substrIn "document"
          (pyLower "What does visa cost and which documents are needed?") = true
      ∧ substrIn "requirement"
          (pyLower "What does visa cost and which documents are needed?") = false
      ∧ substrIn "how long"
          (pyLower "What does visa cost and which documents are needed?") = false
      ∧ substrIn "time"
          (pyLower "What does visa cost and which documents are needed?") = false
      ∧ (faqAnswer "visa" "What does visa cost and which documents are needed?"
            (fun _ => 0) 0).1
          = faq_answers_cost "visa" := by
  refine ⟨by decide, by decide, by decide, by decide, by decide, ?_⟩
  exact faq_routing_cost_before_document "visa"
    "What does visa cost and which documents are needed?" (fun _ => 0) 0
    (by decide) (by decide) (by decide) (by decide) (by decide)

/-- Claim C8: the session-state machine never advances past the Metadata
stage (step 3); rendering the Writing stage without a completed analysis is
a no-op apart from redirecting back to stage 1; and the reset of step 3
returns the machine to the initial Analysis-stage state, whose stored
artifacts are all cleared. -/
theorem pipeline_state_machine (s : SessionState) (a : UserAction)
    (g : Nat → Nat) :
    (s.current_step ≤ 3 → (sessionStep s a).current_step ≤ 3)
      ∧ (s.current_step = 2 → s.analysis_complete = false →
          sessionStep s (UserAction.renderStep2 g) = { s with current_step := 1 })
      ∧ (s.current_step = 3 →
          sessionStep s UserAction.resetClick = initialSession)
      ∧ initialSession.current_step = 1
      ∧ initialSession.analysis_complete = false
      ∧ initialSession.article_generated = false
      ∧ initialSession.analysis = none
      ∧ initialSession.brief = none
      ∧ initialSession.article = none := by
  refine ⟨?_, ?_, ?_, rfl, rfl, rfl, rfl, rfl, rfl⟩
  · intro h3
    cases a with
    | analyzeClick content pages =>
      simp only [sessionStep]
      split
      · simp
      · exact h3
    | renderStep2 g2 =>
      simp only [sessionStep]
      split
      · split
        · simp
        · split
          · split
            · simpa using h3
            · exact h3
          · exact h3
      · exact h3
    | metadataClick =>
      simp only [sessionStep]
      split
      · simp
      · exact h3
    | resetClick =>
      simp only [sessionStep]
      split
      · simp [initialSession]
      · exact h3
  · intro h2 hac
    simp [sessionStep, h2, hac]
  · intro h3
    simp [sessionStep, h3]

/-- Witness for C8: at step 2 with an incomplete analysis the render is
redirected to step 1, and at step 3 the reset restores the initial state. -/
theorem pipeline_state_machine_witness :
    sessionStep
        { current_step := 2, analysis_complete := false,
          article_generated := false, analysis := none, brief := none,
          article := none }
        (UserAction.renderStep2 (fun _ => 0))
      = { current_step := 1, analysis_complete := false,
          article_generated := false, analysis := none, brief := none,
          article := none }
    ∧ sessionStep
        { current_step := 3, analysis_complete := true,
          article_generated := true, analysis := none, brief := none,
          article := none }
        UserAction.resetClick
      = initialSession := by
  constructor
  · exact (pipeline_state_machine
      { current_step := 2, analysis_complete := false,
        article_generated := false, analysis := none, brief := none,
        article := none }
      (UserAction.renderStep2 (fun _ => 0)) (fun _ => 0)).2.1 rfl rfl
  · exact (pipeline_state_machine
      { current_step := 3, analysis_complete := true,
        article_generated := true, analysis := none, brief := none,
        article := none }
      UserAction.resetClick (fun _ => 0)).2.2.1 rfl
